import Mathlib

/-!
Shallow embedding of the AquaTrack synthetic-data generator
(src/generate_data.py) and of its alert-detection engine
(src/dashboard_app.py), together with theorems settling the frozen claims
about them.

Modelling conventions:
* Timestamps are natural numbers: minutes elapsed since `START_DATE`
  (2025-01-01 00:00:00, a midnight).  `timedelta` arithmetic on the
  source's datetimes is exact arithmetic on these minute counts.
* Machine floats are modelled as exact rationals; `round(x, n)` (Python's
  banker's rounding) is `roundTo n`, implemented with round-half-to-even.
* The NumPy random stream seeded by `np.random.seed(42)` is modelled by an
  arbitrary function `g : ℕ → ℚ` giving the successive standard normal
  draws of the run; `np.random.normal(0, factor)` equals
  `factor * (next draw)`, so a call of `add_noise` at stream position `k`
  yields `value * (1 + factor * g k)`.  The generator consumes exactly
  seven draws per time step, in the fixed source order: production, inlet,
  rinse, post-treatment, conductivity, turbidity, temperature.  State of
  the stream is passed explicitly as the next unread position `k₀`.
* `DAYS` and `INTERVAL_MINUTES` are the run-start configuration of the
  simulator contract (`Config`); the remaining module-level constants of
  generate_data.py are fixed definitions below, with the source's values.
* Rational division `x / 0` is `0` in Lean; the source would instead
  produce a float `inf`/NaN there.  No theorem below depends on a division
  by zero except where explicitly discussed.
-/

set_option maxRecDepth 100000

namespace AquaTrack

/-- One row of the generated dataframe: the ProcessSample record, with the
exact column names of generate_data.py (lines 118-133). -/
structure Sample where
  timestamp : ℕ
  scenario : String
  inlet_flow_lph : ℚ
  post_treatment_flow_lph : ℚ
  rinse_flow_lph : ℚ
  cip_flow_lph : ℚ
  production_lph : ℚ
  conductivity_uS_cm : ℚ
  turbidity_NTU : ℚ
  temperature_C : ℚ
  cip_active : Bool
  shift : String
  line_status : String
  wur : ℚ
  deriving DecidableEq, Inhabited

/-- Run-start configuration of the simulator: horizon in days and sample
interval in minutes (source lines 29-30 have DAYS = 30,
INTERVAL_MINUTES = 5). -/
structure Config where
  days : ℕ
  interval_minutes : ℕ
  deriving DecidableEq

/-- The source's configured values: DAYS = 30, INTERVAL_MINUTES = 5. -/
def defaultConfig : Config := ⟨30, 5⟩

/-- TOTAL_POINTS = DAYS * 24 * (60 // INTERVAL_MINUTES), source line 31. -/
def TOTAL_POINTS (cfg : Config) : ℕ :=
  cfg.days * 24 * (60 / cfg.interval_minutes)

/-- PRODUCTION_NOMINAL = 1000 (L/h), source line 34. -/
def PRODUCTION_NOMINAL : ℚ := 1000

/-- PRODUCTION_NIGHT_FACTOR = 0.7, source line 35. -/
def PRODUCTION_NIGHT_FACTOR : ℚ := 7/10

/-- INLET_FLOW_BASE = 1450 (L/h), source line 39. -/
def INLET_FLOW_BASE : ℚ := 1450

/-- TREATMENT_LOSS_PCT = 15 (percent), source line 40. -/
def TREATMENT_LOSS_PCT : ℚ := 15

/-- RINSE_FLOW_BASE = 185 (L/h), source line 41. -/
def RINSE_FLOW_BASE : ℚ := 185

/-- CIP_DURATION_HOURS = 1.5, source line 43, expressed in minutes. -/
def CIP_DURATION_MIN : ℕ := 90

/-- CIP_FLOW_RATE = 1000 (L/h), source line 44. -/
def CIP_FLOW_RATE : ℚ := 1000

/-- CIP_FREQUENCY_DAYS = 3.5, source line 45, expressed in minutes. -/
def CIP_FREQUENCY_MIN : ℕ := 5040

/-- CONDUCTIVITY_MEAN = 245, source line 48. -/
def CONDUCTIVITY_MEAN : ℚ := 245

/-- TURBIDITY_MEAN = 0.6, source line 50. -/
def TURBIDITY_MEAN : ℚ := 6/10

/-- TEMPERATURE_MEAN = 22, source line 52. -/
def TEMPERATURE_MEAN : ℚ := 22

/-- Round a rational to the nearest integer, ties to even: the rounding
of Python's round() in exact arithmetic. -/
def rhe (x : ℚ) : ℤ :=
  if x - ⌊x⌋ = 1/2 then (if ⌊x⌋ % 2 = 0 then ⌊x⌋ else ⌊x⌋ + 1) else round x

/-- Python round(x, d) in exact arithmetic. -/
def roundTo (d : ℕ) (x : ℚ) : ℚ := (rhe (x * 10 ^ d) : ℚ) / 10 ^ d

/-- add_noise (source lines 62-64): value * (1 + np.random.normal(0,
factor)), the normal draw being factor times the standard draw at the
current stream position k. -/
def add_noise (g : ℕ → ℚ) (k : ℕ) (value factor : ℚ) : ℚ :=
  value * (1 + factor * g k)

/-- get_shift (source lines 66-73). -/
def get_shift (hour : ℕ) : String :=
  if 6 ≤ hour ∧ hour < 14 then "morning"
  else if 14 ≤ hour ∧ hour < 22 then "afternoon"
  else "night"

/-- is_cip_time (source lines 75-80): membership of the timestamp in some
half-open scheduled interval. -/
def is_cip_time (t : ℕ) (cip_schedule : List (ℕ × ℕ)) : Bool :=
  cip_schedule.any fun iv => decide (iv.1 ≤ t) && decide (t < iv.2)

/-- generate_cip_schedule (source lines 82-97).  The while loop's k-th
iteration has current_date = start + k * frequency; it runs while
current < start + days*1440, i.e. for k < ⌈days*1440 / frequency⌉.  Each
iteration places the interval start at 14:00 of current_date's calendar
day ((current / 1440) * 1440 + 840 absolute minutes, since day boundaries
sit at multiples of 1440), keeps it when it starts before the horizon
end, and the interval lasts CIP_DURATION_MIN minutes. -/
def generate_cip_schedule (start_min days frequency_min : ℕ) : List (ℕ × ℕ) :=
  let horizon := start_min + days * 1440
  let iters := if frequency_min = 0 then 0
               else (days * 1440 + frequency_min - 1) / frequency_min
  (List.range iters).filterMap fun k =>
    let current := start_min + k * frequency_min
    let cip_start := (current / 1440) * 1440 + 14 * 60
    if cip_start < horizon then some (cip_start, cip_start + CIP_DURATION_MIN)
    else none

/-- The CIP schedule a generator run uses (source line 115):
generate_cip_schedule(START_DATE, DAYS), START_DATE being minute 0. -/
def cipScheduleOf (cfg : Config) : List (ℕ × ℕ) :=
  generate_cip_schedule 0 cfg.days CIP_FREQUENCY_MIN

/-- Timestamp of sample i: START_DATE + INTERVAL_MINUTES * i minutes
(source lines 111-112). -/
def tsAt (cfg : Config) (i : ℕ) : ℕ := cfg.interval_minutes * i

/-- Shift of sample i, from its hour of day (source lines 136-137). -/
def shiftAt (cfg : Config) (i : ℕ) : String :=
  get_shift ((tsAt cfg i / 60) % 24)

/-- cip_active of sample i (source line 147). -/
def cip_active_at (cfg : Config) (i : ℕ) : Bool :=
  is_cip_time (tsAt cfg i) (cipScheduleOf cfg)

/-- Production after the night reduction and its noise draw (stream
position k₀ + 7i), source lines 139-144. -/
def production_noised (cfg : Config) (g : ℕ → ℚ) (k₀ i : ℕ) : ℚ :=
  add_noise g (k₀ + 7 * i)
    (if shiftAt cfg i = "night" then PRODUCTION_NOMINAL * PRODUCTION_NIGHT_FACTOR
     else PRODUCTION_NOMINAL)
    (3/100)

/-- Production after the CIP slowdown branch (source lines 149-158). -/
def production_raw (cfg : Config) (g : ℕ → ℚ) (k₀ i : ℕ) : ℚ :=
  if cip_active_at cfg i then production_noised cfg g k₀ i * (8/10)
  else production_noised cfg g k₀ i

/-- cip_flow of sample i before rounding (source lines 151, 156). -/
def cip_flow_raw (cfg : Config) (i : ℕ) : ℚ :=
  if cip_active_at cfg i then CIP_FLOW_RATE else 0

/-- Inlet flow after the CIP branch and its noise draw (stream position
k₀ + 7i + 1), source lines 152, 157, 161. -/
def inlet_raw (cfg : Config) (g : ℕ → ℚ) (k₀ i : ℕ) : ℚ :=
  add_noise g (k₀ + 7 * i + 1)
    (if cip_active_at cfg i then INLET_FLOW_BASE + CIP_FLOW_RATE else INLET_FLOW_BASE)
    (4/100)

/-- Rinse flow after the CIP branch and its noise draw (stream position
k₀ + 7i + 2), source lines 153, 158, 162. -/
def rinse_raw (cfg : Config) (g : ℕ → ℚ) (k₀ i : ℕ) : ℚ :=
  add_noise g (k₀ + 7 * i + 2)
    (if cip_active_at cfg i then RINSE_FLOW_BASE * (1/2) else RINSE_FLOW_BASE)
    (6/100)

/-- Post-treatment flow with its noise draw (stream position k₀ + 7i + 3),
source lines 165-166. -/
def post_raw (cfg : Config) (g : ℕ → ℚ) (k₀ i : ℕ) : ℚ :=
  add_noise g (k₀ + 7 * i + 3)
    (inlet_raw cfg g k₀ i * (1 - TREATMENT_LOSS_PCT / 100)) (3/100)

/-- Conductivity draw (stream position k₀ + 7i + 4), source line 169. -/
def conductivity_raw (g : ℕ → ℚ) (k₀ i : ℕ) : ℚ :=
  add_noise g (k₀ + 7 * i + 4) CONDUCTIVITY_MEAN (2/100)

/-- Turbidity draw, floored at 0.1 (stream position k₀ + 7i + 5), source
line 170. -/
def turbidity_raw (g : ℕ → ℚ) (k₀ i : ℕ) : ℚ :=
  max (1/10) (add_noise g (k₀ + 7 * i + 5) TURBIDITY_MEAN (15/100))

/-- Temperature draw (stream position k₀ + 7i + 6), source line 171. -/
def temperature_raw (g : ℕ → ℚ) (k₀ i : ℕ) : ℚ :=
  add_noise g (k₀ + 7 * i + 6) TEMPERATURE_MEAN (5/100)

/-- wur of sample i before rounding (source line 174): guarded division,
silently 0 when production is not positive. -/
def wur_raw (cfg : Config) (g : ℕ → ℚ) (k₀ i : ℕ) : ℚ :=
  if 0 < production_raw cfg g k₀ i then inlet_raw cfg g k₀ i / production_raw cfg g k₀ i
  else 0

/-- One appended row of the baseline dataframe (source lines 135-193),
with the per-column rounding of lines 180-193. -/
def mkBaselineSample (cfg : Config) (g : ℕ → ℚ) (k₀ i : ℕ) : Sample where
  timestamp := tsAt cfg i
  scenario := "baseline"
  inlet_flow_lph := roundTo 2 (inlet_raw cfg g k₀ i)
  post_treatment_flow_lph := roundTo 2 (post_raw cfg g k₀ i)
  rinse_flow_lph := roundTo 2 (rinse_raw cfg g k₀ i)
  cip_flow_lph := roundTo 2 (cip_flow_raw cfg i)
  production_lph := roundTo 2 (production_raw cfg g k₀ i)
  conductivity_uS_cm := roundTo 2 (conductivity_raw g k₀ i)
  turbidity_NTU := roundTo 2 (turbidity_raw g k₀ i)
  temperature_C := roundTo 1 (temperature_raw g k₀ i)
  cip_active := cip_active_at cfg i
  shift := shiftAt cfg i
  line_status := if 500 < production_raw cfg g k₀ i then "running" else "stopped"
  wur := roundTo 3 (wur_raw cfg g k₀ i)

/-- generate_baseline_data (source lines 103-206): the list of TOTAL_POINTS
samples, paired with the random-stream position after the call (each of
the TOTAL_POINTS loop iterations consumes exactly 7 draws). -/
def generate_baseline_data (cfg : Config) (g : ℕ → ℚ) (k₀ : ℕ) :
    List Sample × ℕ :=
  ((List.range (TOTAL_POINTS cfg)).map (mkBaselineSample cfg g k₀),
   k₀ + 7 * TOTAL_POINTS cfg)

/-- Leak window (source lines 227-228): day 16, 14h00-22h00, i.e.
[START + 15d + 14h, START + 15d + 22h) in absolute minutes. -/
def in_leak_window (t : ℕ) : Bool := decide (22440 ≤ t) && decide (t < 22920)

/-- Over-rinse window (source lines 235-236): day 22, 09h00-17h00. -/
def in_overrinse_window (t : ℕ) : Bool := decide (30780 ≤ t) && decide (t < 31260)

/-- Unplanned-CIP window (source lines 244-245): day 28, 15h30, for
CIP_DURATION_HOURS = 1.5 h. -/
def in_unplanned_cip_window (t : ℕ) : Bool := decide (39810 ≤ t) && decide (t < 39900)

/-- Row-wise effect of generate_anomaly_data after its internal baseline
generation (source lines 224-256): set the scenario column, apply the
three timestamp-masked perturbations in source order (within the
over-rinse mask the inlet update at line 240 reads the rinse column
already multiplied at line 239), then recompute wur from the current
columns and round it to 3 decimals. -/
def anomalyStep (s : Sample) : Sample :=
  let s1 : Sample := { s with scenario := "anomaly" }
  let s2 : Sample :=
    if in_leak_window s1.timestamp then
      { s1 with inlet_flow_lph := s1.inlet_flow_lph * (12/10) }
    else s1
  let s3 : Sample :=
    if in_overrinse_window s2.timestamp then
      let r := s2.rinse_flow_lph * (15/10)
      { s2 with rinse_flow_lph := r, inlet_flow_lph := s2.inlet_flow_lph + r * (3/10) }
    else s2
  let s4 : Sample :=
    if in_unplanned_cip_window s3.timestamp then
      { s3 with cip_flow_lph := CIP_FLOW_RATE, cip_active := true,
                inlet_flow_lph := s3.inlet_flow_lph + CIP_FLOW_RATE,
                production_lph := s3.production_lph * (8/10) }
    else s3
  { s4 with wur := roundTo 3 (s4.inlet_flow_lph / s4.production_lph) }

/-- generate_anomaly_data (source lines 212-262): it first calls
generate_baseline_data again (line 223), consuming the next
7 * TOTAL_POINTS draws of the stream, then applies the row-wise
perturbations. -/
def generate_anomaly_data (cfg : Config) (g : ℕ → ℚ) (k₀ : ℕ) :
    List Sample × ℕ :=
  let b := generate_baseline_data cfg g k₀
  (b.1.map anomalyStep, b.2)

/-- Row-wise effect of generate_optimized_data after its internal baseline
generation (source lines 281-306): the four scenario-wide adjustments in
source order (within the CIP mask the inlet update at line 298 reads the
cip_flow column already multiplied at line 297), then the wur recompute. -/
def optimizedStep (s : Sample) : Sample :=
  let s1 : Sample := { s with scenario := "optimized" }
  let s2 : Sample := { s1 with rinse_flow_lph := s1.rinse_flow_lph * (75/100) }
  let s3 : Sample :=
    { s2 with post_treatment_flow_lph := s2.post_treatment_flow_lph * (88/85) }
  let s4 : Sample := { s3 with inlet_flow_lph := s3.inlet_flow_lph * (97/100) }
  let s5 : Sample :=
    if s4.cip_active then
      let c := s4.cip_flow_lph * (90/100)
      { s4 with cip_flow_lph := c, inlet_flow_lph := s4.inlet_flow_lph - c * (1/10) }
    else s4
  let s6 : Sample := { s5 with inlet_flow_lph := s5.inlet_flow_lph * (90/100) }
  { s6 with wur := roundTo 3 (s6.inlet_flow_lph / s6.production_lph) }

/-- generate_optimized_data (source lines 268-318): a fresh
generate_baseline_data call (line 280) followed by the row-wise
adjustments. -/
def generate_optimized_data (cfg : Config) (g : ℕ → ℚ) (k₀ : ℕ) :
    List Sample × ℕ :=
  let b := generate_baseline_data cfg g k₀
  (b.1.map optimizedStep, b.2)

/-- Sum of the inlet_flow_lph column of a sample list. -/
def sumInlet (l : List Sample) : ℚ := (l.map Sample.inlet_flow_lph).sum

/-- An alert record of detect_alerts (dashboard_app.py lines 121-156). -/
structure Alert where
  type : String
  severity : String
  message : String
  time : ℕ
  deriving DecidableEq

/-- Fixed-point decimal formatting of Python's f-string specifier
":.df" in exact arithmetic (round half to even, d fractional digits; for
d = 0 no decimal point is printed). -/
def fmtFixed (d : ℕ) (q : ℚ) : String :=
  let n : ℤ := rhe (q * 10 ^ d)
  let sign := if n < 0 then "-" else ""
  let m := n.natAbs
  if d = 0 then sign ++ toString m
  else
    let fs := toString (m % 10 ^ d)
    let pad := String.mk (List.replicate (d - fs.length) '0')
    sign ++ toString (m / 10 ^ d) ++ "." ++ pad ++ fs

/-- Message of the WUR-critical alert (dashboard line 124). -/
def wur_critical_msg (w : ℚ) : String :=
  "WUR actuel : " ++ fmtFixed 2 w ++ " L/L (> 1.85)"

/-- Message of the WUR-elevated alert (dashboard line 131). -/
def wur_elevated_msg (w : ℚ) : String :=
  "WUR actuel : " ++ fmtFixed 2 w ++ " L/L (> 1.70)"

/-- Message of the suspected-leak alert (dashboard line 145). -/
def leak_msg (dev : ℚ) : String :=
  "Débit entrée +" ++ fmtFixed 1 dev ++ "% vs moyenne (fuite possible)"

/-- Message of the over-rinse alert (dashboard line 154). -/
def rinse_msg (r : ℚ) : String :=
  "Débit rinçage : " ++ fmtFixed 0 r ++ " L/h (> 250)"

/-- The pandas slice iloc[-13:-1] (dashboard line 137): elements from
index len-13 (clamped at 0) up to but excluding the last. -/
def trailing_window (df : List Sample) : List Sample :=
  df.dropLast.drop (df.dropLast.length - 12)

/-- Mean inlet flow over that slice (dashboard line 137); pandas mean is
sum divided by element count. -/
def trailing_mean (df : List Sample) : ℚ :=
  ((trailing_window df).map Sample.inlet_flow_lph).sum /
    (trailing_window df).length

/-- Percentage deviation of the latest inlet flow from the trailing mean
(dashboard line 139). -/
def leak_deviation (df : List Sample) (last : Sample) : ℚ :=
  (last.inlet_flow_lph - trailing_mean df) / trailing_mean df * 100

/-- detect_alerts (dashboard lines 115-158).  The function reads the last
row unconditionally (iloc[-1] raises on an empty frame, modelled by
none); the WUR rules are an if/elif on the latest wur; the suspected-leak
rule is guarded by len > 12; the over-rinse rule is unguarded.  Alerts
are appended in that fixed order. -/
def detect_alerts (df : List Sample) : Option (List Alert) :=
  match df.getLast? with
  | none => none
  | some last =>
    let wur_alerts : List Alert :=
      if (185/100 : ℚ) < last.wur then
        [⟨"WUR Critique", "HIGH", wur_critical_msg last.wur, last.timestamp⟩]
      else if (17/10 : ℚ) < last.wur then
        [⟨"WUR Élevé", "MEDIUM", wur_elevated_msg last.wur, last.timestamp⟩]
      else []
    let leak_alerts : List Alert :=
      if 12 < df.length then
        if 15 < leak_deviation df last then
          [⟨"Fuite Suspectée", "HIGH", leak_msg (leak_deviation df last),
            last.timestamp⟩]
        else []
      else []
    let rinse_alerts : List Alert :=
      if (250 : ℚ) < last.rinse_flow_lph then
        [⟨"Sur-rinçage", "MEDIUM", rinse_msg last.rinse_flow_lph,
          last.timestamp⟩]
      else []
    some (wur_alerts ++ leak_alerts ++ rinse_alerts)

/-- The alert list the dashboard actually renders (dashboard lines
392-407): detect_alerts is only called when more than 12 samples have
been observed; otherwise no alerts are shown. -/
def displayed_alerts (df : List Sample) : List Alert :=
  if 12 < df.length then (detect_alerts df).getD [] else []

/-- A dataframe as validate_dataset sees it: the sample rows plus the two
derived columns it may add (absent, i.e. none, before validation). -/
structure Frame where
  samples : List Sample
  total_out : Option (List ℚ)
  balance_error : Option (List ℚ)
  deriving DecidableEq

/-- The total_out column added at source line 342. -/
def total_out_col (l : List Sample) : List ℚ :=
  l.map fun s => s.post_treatment_flow_lph + s.rinse_flow_lph + s.cip_flow_lph

/-- The balance_error column added at source line 343. -/
def balance_error_col (l : List Sample) : List ℚ :=
  l.map fun s =>
    |s.inlet_flow_lph - (s.post_treatment_flow_lph + s.rinse_flow_lph +
      s.cip_flow_lph)| / s.inlet_flow_lph

/-- The errors list of validate_dataset (source lines 328-351): range
checks on wur and production append errors; the conductivity and
mass-balance findings only append warnings, and the model has no missing
values, so test 3 never appends. -/
def validate_errors (l : List Sample) : List String :=
  (if l.any (fun s => decide (s.wur < 1) || decide (3 < s.wur)) then
     ["WUR hors plage"] else []) ++
  (if l.any (fun s => decide (s.production_lph < 0) ||
      decide (1500 < s.production_lph)) then
     ["Production hors plage"] else [])

/-- validate_dataset (source lines 324-366): the input frame is mutated in
place by adding the total_out and balance_error columns; the explicit
state passing returns the updated frame together with the boolean result
len(errors) == 0. -/
def validate_dataset (f : Frame) : Frame × Bool :=
  let f2 : Frame := { f with
    total_out := some (total_out_col f.samples),
    balance_error := some (balance_error_col f.samples) }
  (f2, (validate_errors f.samples).isEmpty)

/-- The three dataframes main (source lines 442-465) passes to
export_to_csv, in export order: the generators run in sequence on the
shared random stream (each advancing it), each frame is then validated in
place, and the mutated frames are exported. -/
def mainExportedFrames (cfg : Config) (g : ℕ → ℚ) : List Frame :=
  let b := generate_baseline_data cfg g 0
  let a := generate_anomaly_data cfg g b.2
  let o := generate_optimized_data cfg g a.2
  [(validate_dataset ⟨b.1, none, none⟩).1,
   (validate_dataset ⟨a.1, none, none⟩).1,
   (validate_dataset ⟨o.1, none, none⟩).1]

/-- A small run configuration used for concrete evaluations: one day at
one-hour resolution (24 samples, 168 random draws per generator call). -/
def cfg1 : Config := ⟨1, 60⟩

/-- A run configuration long enough to contain the day-22 over-rinse
window: 22 days at one-hour resolution (528 samples). -/
def cfg22 : Config := ⟨22, 60⟩

/-- The all-zero random stream: every noise draw is 0. -/
def gConst0 : ℕ → ℚ := fun _ => 0

/-- A stream whose first draw makes the first sample's production exactly
zero: the night production 700 * (1 + 0.03 * (-100/3)) vanishes. -/
def gZeroProd : ℕ → ℚ := fun k => if k = 0 then -(100/3) else 0

/-- The constant -50 stream: every noised value is negated
(1 + 0.04 * (-50) = -1), driving all inlet flows negative. -/
def gNeg50 : ℕ → ℚ := fun _ => (-50 : ℚ)

/-- A stream agreeing with gConst0 on the first 168 draws (the draws one
24-sample generator call consumes) and differing afterwards. -/
def gTail1 : ℕ → ℚ := fun j => if j < 168 then 0 else 1

/-- A sample whose wur 1.90 exceeds the 1.85 critical threshold while all
other alert rules stay below their thresholds. -/
def sWurHigh : Sample :=
  ⟨0, "baseline", 1000, 0, 0, 0, 1000, 0, 0, 0, false, "night", "running", 19/10⟩

/-- A one-sample frame (far below the 12-sample minimum window). -/
def dfWurHigh : List Sample := [sWurHigh]

/-- A quiet sample with inlet flow 1000. -/
def sInlet1000 : Sample :=
  ⟨0, "baseline", 1000, 0, 0, 0, 1000, 0, 0, 0, false, "night", "running", 1⟩

/-- The latest sample of the leak scenario: inlet flow 2000. -/
def sInlet2000 : Sample :=
  ⟨720, "baseline", 2000, 0, 0, 0, 1000, 0, 0, 0, false, "night", "running", 1⟩

/-- Thirteen samples: twelve with inlet 1000 followed by one with inlet
2000, the spec's suspected-leak example. -/
def dfLeak : List Sample := List.replicate 12 sInlet1000 ++ [sInlet2000]

/-- Predicate for a HIGH WUR-critical alert record. -/
def isWurCriticalAlert (a : Alert) : Bool :=
  a.type == "WUR Critique" && a.severity == "HIGH"

/-- Predicate for a MEDIUM WUR-elevated alert record. -/
def isWurElevatedAlert (a : Alert) : Bool := a.type == "WUR Élevé"

/-- Predicate for a suspected-leak alert record. -/
def isLeakAlert (a : Alert) : Bool := a.type == "Fuite Suspectée"

/-- Reading position i of a mapped range list with a default yields the
function applied at i, whenever i is in range. -/
theorem getD_map_range {α : Type _} (f : ℕ → α) {n i : ℕ} (hi : i < n) (d : α) :
    ((List.range n).map f).getD i d = f i := by
  rw [List.getD_eq_getElem?_getD, List.getElem?_map, List.getElem?_range hi]
  rfl

/-- A list whose getLast? is some x is its dropLast followed by x. -/
theorem dropLast_append_of_getLast {α : Type _} {l : List α} {x : α}
    (h : l.getLast? = some x) : l.dropLast ++ [x] = l := by
  have hne : l ≠ [] := by rintro rfl; simp at h
  rw [List.getLast?_eq_getLast l hne, Option.some_inj] at h
  rw [← h]
  exact List.dropLast_append_getLast hne

/-- C8: with the configured start date (2025-01-01), horizon (30 days) and
recurrence period (3.5 days), the generated CIP schedule consists of
pairwise non-overlapping intervals, each of exactly the configured
1.5-hour duration, none of which starts at or after the horizon end. -/
theorem claim_C8 :
    List.Pairwise (fun a b : ℕ × ℕ => a.2 ≤ b.1) (cipScheduleOf defaultConfig) ∧
    ∀ iv ∈ cipScheduleOf defaultConfig,
      iv.2 = iv.1 + CIP_DURATION_MIN ∧ iv.1 < defaultConfig.days * 1440 := by
  decide

/-- C8 witness: the first scheduled interval, (840, 930), is in the
schedule, lasts the configured 90 minutes and starts before the horizon
end. -/
theorem claim_C8_witness :
    (840, 930) ∈ cipScheduleOf defaultConfig ∧
    (930 : ℕ) = 840 + CIP_DURATION_MIN ∧ 840 < defaultConfig.days * 1440 :=
  ⟨by decide, claim_C8.2 (840, 930) (by decide)⟩

/-- C10: validate_dataset is not read-only on its input frame: it adds the
total_out and balance_error columns (computed from the sample rows),
leaves the sample rows - every other column - unchanged, and main exports
exactly those augmented frames for the three scenarios. -/
theorem claim_C10 :
    (∀ f : Frame,
      (validate_dataset f).1.samples = f.samples ∧
      (validate_dataset f).1.total_out = some (total_out_col f.samples) ∧
      (validate_dataset f).1.balance_error = some (balance_error_col f.samples)) ∧
    (∀ (cfg : Config) (g : ℕ → ℚ),
      (mainExportedFrames cfg g).map Frame.samples =
        [(generate_baseline_data cfg g 0).1,
         (generate_anomaly_data cfg g (generate_baseline_data cfg g 0).2).1,
         (generate_optimized_data cfg g
            (generate_anomaly_data cfg g (generate_baseline_data cfg g 0).2).2).1] ∧
      (mainExportedFrames cfg g).all
        (fun fr => fr.total_out.isSome && fr.balance_error.isSome) = true) :=
  ⟨fun _ => ⟨rfl, rfl, rfl⟩, fun _ _ => ⟨rfl, rfl⟩⟩

/-- C2: the baseline generator is deterministic in the seed and
configuration: it depends on nothing but the configuration and the
7 * TOTAL_POINTS random draws starting at its stream position, so two
calls reading the same draws from the same position - as two runs seeded
identically do - produce identical sample sequences, field-for-field,
with no reseeding required inside the call. -/
theorem claim_C2 (cfg : Config) (k₀ : ℕ) (g g' : ℕ → ℚ)
    (hg : ∀ j, k₀ ≤ j → j < k₀ + 7 * TOTAL_POINTS cfg → g j = g' j) :
    generate_baseline_data cfg g k₀ = generate_baseline_data cfg g' k₀ := by
  unfold generate_baseline_data
  simp only [Prod.mk.injEq]
  refine ⟨List.map_congr_left fun i hi => ?_, trivial⟩
  rw [List.mem_range] at hi
  have e0 : g (k₀ + 7 * i) = g' (k₀ + 7 * i) := hg _ (by omega) (by omega)
  have e1 : g (k₀ + 7 * i + 1) = g' (k₀ + 7 * i + 1) := hg _ (by omega) (by omega)
  have e2 : g (k₀ + 7 * i + 2) = g' (k₀ + 7 * i + 2) := hg _ (by omega) (by omega)
  have e3 : g (k₀ + 7 * i + 3) = g' (k₀ + 7 * i + 3) := hg _ (by omega) (by omega)
  have e4 : g (k₀ + 7 * i + 4) = g' (k₀ + 7 * i + 4) := hg _ (by omega) (by omega)
  have e5 : g (k₀ + 7 * i + 5) = g' (k₀ + 7 * i + 5) := hg _ (by omega) (by omega)
  have e6 : g (k₀ + 7 * i + 6) = g' (k₀ + 7 * i + 6) := hg _ (by omega) (by omega)
  simp only [mkBaselineSample, production_raw, production_noised, inlet_raw,
    rinse_raw, post_raw, conductivity_raw, turbidity_raw, temperature_raw,
    wur_raw, add_noise, e0, e1, e2, e3, e4, e5, e6]

/-- C2 witness: two streams agreeing on the 168 draws a 24-sample run
consumes (and differing beyond them) give identical sequences. -/
theorem claim_C2_witness :
    (∀ j, 0 ≤ j → j < 0 + 7 * TOTAL_POINTS cfg1 → gConst0 j = gTail1 j) ∧
    generate_baseline_data cfg1 gConst0 0 = generate_baseline_data cfg1 gTail1 0 := by
  have h : ∀ j, 0 ≤ j → j < 0 + 7 * TOTAL_POINTS cfg1 → gConst0 j = gTail1 j := by
    intro j _ hj
    have h168 : j < 168 := hj
    simp [gConst0, gTail1, h168]
  exact ⟨h, claim_C2 cfg1 0 gConst0 gTail1 h⟩

/-- C3 counterexample: a run whose first draw makes the first sample's
production exactly 0; that sample's stored wur is silently 0 - the
emitted record carries no undefined marker, contradicting the claim that
a zero-production sample represents wur as an explicit sentinel rather
than a silent 0. -/
theorem claim_C3_counterexample :
    ((generate_baseline_data cfg1 gZeroProd 0).1.getD 0 default).production_lph = 0 ∧
    ((generate_baseline_data cfg1 gZeroProd 0).1.getD 0 default).wur = 0 := by
  with_unfolding_all decide

/-- C3 amended: whenever a step's pre-rounding production is not positive,
the generator silently emits wur = 0 for that sample; the record has no
undefined marker, and downstream rules read wur as the plain number 0. -/
theorem claim_C3_amended (cfg : Config) (g : ℕ → ℚ) (k₀ i : ℕ)
    (hi : i < TOTAL_POINTS cfg) (hp : production_raw cfg g k₀ i ≤ 0) :
    ((generate_baseline_data cfg g k₀).1.getD i default).wur = 0 := by
  unfold generate_baseline_data
  rw [getD_map_range _ hi]
  simp only [mkBaselineSample]
  unfold wur_raw
  rw [if_neg (not_lt.mpr hp)]
  with_unfolding_all decide

/-- C3 witness: the concrete zero-production run satisfies the amended
claim's hypotheses at sample 0, whose wur is 0. -/
theorem claim_C3_witness :
    production_raw cfg1 gZeroProd 0 0 ≤ 0 ∧ 0 < TOTAL_POINTS cfg1 ∧
    ((generate_baseline_data cfg1 gZeroProd 0).1.getD 0 default).wur = 0 :=
  ⟨by with_unfolding_all decide, by decide,
   claim_C3_amended cfg1 gZeroProd 0 0 (by decide) (by with_unfolding_all decide)⟩

/-- C4 counterexample: on a one-sample sequence (far below the minimum
window) whose wur is 1.90, detect_alerts itself does not return an empty
alert sequence - it returns the WUR-critical alert.  The claim that the
alert-evaluation function itself yields an empty sequence below the
minimum, with a configurable minimum, fails on the code. -/
theorem claim_C4_counterexample :
    dfWurHigh.length ≤ 12 ∧
    detect_alerts dfWurHigh ≠ none ∧
    detect_alerts dfWurHigh ≠ some [] ∧
    detect_alerts dfWurHigh =
      some [⟨"WUR Critique", "HIGH", "WUR actuel : 1.90 L/L (> 1.85)", 0⟩] := by
  with_unfolding_all decide

/-- C4 amended: the empty-below-minimum behaviour belongs to the caller:
the dashboard invokes detect_alerts only when more than 12 samples
(hard-coded, not configurable) are available, so the alerts it displays
are empty for any shorter sequence; detect_alerts itself evaluates the
WUR and over-rinse rules regardless of length, and only the
suspected-leak rule is internally guarded by the same hard-coded
12-sample minimum. -/
theorem claim_C4_amended :
    (∀ df : List Sample, df.length ≤ 12 → displayed_alerts df = []) ∧
    (∀ df : List Sample, df.length ≤ 12 →
      ((detect_alerts df).getD []).filter isLeakAlert = []) := by
  constructor
  · intro df h
    unfold displayed_alerts
    rw [if_neg (by omega)]
  · intro df h
    rcases hgl : df.getLast? with _ | last
    · simp [detect_alerts, hgl]
    · simp only [detect_alerts, hgl, Option.getD_some]
      rw [if_neg (show ¬ 12 < df.length by omega)]
      simp only [List.filter_append]
      split_ifs <;> simp [isLeakAlert, List.filter]

/-- C4 witness: the amended claim instantiated on the concrete one-sample
sequence: nothing is displayed and no leak alert is produced. -/
theorem claim_C4_witness :
    dfWurHigh.length ≤ 12 ∧ displayed_alerts dfWurHigh = [] ∧
    ((detect_alerts dfWurHigh).getD []).filter isLeakAlert = [] :=
  ⟨by decide, claim_C4_amended.1 dfWurHigh (by decide),
   claim_C4_amended.2 dfWurHigh (by decide)⟩

/-- C5: whenever the latest sample's wur exceeds the 1.85 critical
threshold, the evaluation emits exactly one HIGH WUR-critical alert and
no MEDIUM WUR-elevated alert: the two WUR rules are an if/elif, so they
never both fire on the same call. -/
theorem claim_C5 (df : List Sample) (last : Sample)
    (hl : df.getLast? = some last) (hw : (185/100 : ℚ) < last.wur) :
    ((detect_alerts df).getD []).countP isWurCriticalAlert = 1 ∧
    ((detect_alerts df).getD []).countP isWurElevatedAlert = 0 := by
  simp only [detect_alerts, hl, Option.getD_some]
  rw [if_pos hw]
  simp only [List.countP_append]
  constructor <;> split_ifs <;>
    simp [List.countP_cons, List.countP_nil, isWurCriticalAlert,
      isWurElevatedAlert]

/-- C5 witness: the concrete one-sample sequence with wur 1.90 gets
exactly one WUR-critical alert and no WUR-elevated alert. -/
theorem claim_C5_witness :
    dfWurHigh.getLast? = some sWurHigh ∧ (185/100 : ℚ) < sWurHigh.wur ∧
    ((detect_alerts dfWurHigh).getD []).countP isWurCriticalAlert = 1 ∧
    ((detect_alerts dfWurHigh).getD []).countP isWurElevatedAlert = 0 :=
  ⟨by with_unfolding_all decide, by with_unfolding_all decide,
   (claim_C5 dfWurHigh sWurHigh (by with_unfolding_all decide)
     (by with_unfolding_all decide)).1,
   (claim_C5 dfWurHigh sWurHigh (by with_unfolding_all decide)
     (by with_unfolding_all decide)).2⟩

/-- C6: on any sequence with more than 12 samples, the suspected-leak rule
compares the latest inlet flow against the mean of exactly the 12 samples
immediately preceding the latest one (the trailing window excludes the
latest and, together with the prefix before it and the latest sample,
reassembles the sequence), and a HIGH leak alert carrying the deviation
in its message is emitted precisely when the percentage deviation exceeds
15. -/
theorem claim_C6 (df : List Sample) (last : Sample)
    (hlen : 12 < df.length) (hl : df.getLast? = some last) :
    (trailing_window df).length = 12 ∧
    df.dropLast.take (df.dropLast.length - 12) ++ trailing_window df ++ [last] = df ∧
    trailing_mean df =
      ((trailing_window df).map Sample.inlet_flow_lph).sum / 12 ∧
    ((detect_alerts df).getD []).filter isLeakAlert =
      (if 15 < leak_deviation df last then
        [⟨"Fuite Suspectée", "HIGH", leak_msg (leak_deviation df last),
          last.timestamp⟩]
       else []) := by
  have hw : (trailing_window df).length = 12 := by
    unfold trailing_window
    rw [List.length_drop, List.length_dropLast]
    omega
  refine ⟨hw, ?_, ?_, ?_⟩
  · rw [show trailing_window df = df.dropLast.drop (df.dropLast.length - 12)
      from rfl]
    rw [List.take_append_drop]
    exact dropLast_append_of_getLast hl
  · unfold trailing_mean
    rw [hw]
    norm_num
  · simp only [detect_alerts, hl, Option.getD_some]
    rw [if_pos hlen]
    simp only [List.filter_append]
    split_ifs <;> simp [isLeakAlert, List.filter]

/-- C6 witness: the spec's example - twelve samples of inlet 1000 followed
by a latest inlet of 2000 - has deviation exactly 100 and produces the
HIGH suspected-leak alert whose message reports +100.0%. -/
theorem claim_C6_witness :
    12 < dfLeak.length ∧ dfLeak.getLast? = some sInlet2000 ∧
    leak_deviation dfLeak sInlet2000 = 100 ∧
    ((detect_alerts dfLeak).getD []).filter isLeakAlert =
      [⟨"Fuite Suspectée", "HIGH",
        "Débit entrée +100.0% vs moyenne (fuite possible)", 720⟩] := by
  refine ⟨by decide, by with_unfolding_all decide,
    by with_unfolding_all decide, ?_⟩
  rw [(claim_C6 dfLeak sInlet2000 (by decide)
    (by with_unfolding_all decide)).2.2.2]
  with_unfolding_all decide

/-- Row i of the anomaly dataframe is the row-wise transform of row i of
the baseline dataframe its own generator call produced. -/
theorem anomaly_getD (cfg : Config) (g : ℕ → ℚ) (k₀ i : ℕ)
    (hi : i < TOTAL_POINTS cfg) :
    (generate_anomaly_data cfg g k₀).1.getD i default =
      anomalyStep ((generate_baseline_data cfg g k₀).1.getD i default) := by
  have hb : (generate_baseline_data cfg g k₀).1.getD i default =
      mkBaselineSample cfg g k₀ i := by
    unfold generate_baseline_data
    exact getD_map_range _ hi _
  have ha : (generate_anomaly_data cfg g k₀).1.getD i default =
      anomalyStep (mkBaselineSample cfg g k₀ i) := by
    show (((List.range (TOTAL_POINTS cfg)).map (mkBaselineSample cfg g k₀)).map
        anomalyStep).getD i default = _
    rw [List.map_map]
    exact getD_map_range _ hi _
  rw [ha, hb]

/-- A timestamp in the over-rinse window lies in neither of the other two
anomaly windows. -/
theorem overrinse_not_in_others {t : ℕ} (h : in_overrinse_window t = true) :
    in_leak_window t = false ∧ in_unplanned_cip_window t = false := by
  simp only [in_overrinse_window, Bool.and_eq_true, decide_eq_true_eq] at h
  constructor <;>
    · simp only [in_leak_window, in_unplanned_cip_window, Bool.and_eq_false_iff,
        decide_eq_false_iff_not]
      omega

/-- C7 counterexample: sample 513 of an anomaly run (timestamp 30780, in
the over-rinse window) has its rinse flow multiplied by 1.5, but its
inlet flow is not the baseline inlet plus 0.3 times the added rinse flow
(the code adds 0.3 times the full new rinse flow instead): with the
all-zero stream the baseline row has inlet 1450 and rinse 185, and the
anomaly row has inlet 1533.25, not 1477.75. -/
theorem claim_C7_counterexample :
    in_overrinse_window
      (((generate_anomaly_data cfg22 gConst0 0).1.getD 513 default).timestamp) =
      true ∧
    ((generate_anomaly_data cfg22 gConst0 0).1.getD 513 default).rinse_flow_lph =
      ((generate_baseline_data cfg22 gConst0 0).1.getD 513
        default).rinse_flow_lph * (15/10) ∧
    ((generate_anomaly_data cfg22 gConst0 0).1.getD 513 default).inlet_flow_lph ≠
      ((generate_baseline_data cfg22 gConst0 0).1.getD 513
          default).inlet_flow_lph +
        (((generate_anomaly_data cfg22 gConst0 0).1.getD 513
            default).rinse_flow_lph -
          ((generate_baseline_data cfg22 gConst0 0).1.getD 513
            default).rinse_flow_lph) * (3/10) := by
  with_unfolding_all decide

/-- C7 amended: inside the over-rinse window the transform multiplies the
rinse flow by 1.5 and increases the inlet flow by 0.3 times the new
(post-multiplication) rinse flow, i.e. by 0.45 times the original rinse
flow - not by 0.3 times the added rinse flow. -/
theorem claim_C7_amended (cfg : Config) (g : ℕ → ℚ) (k₀ i : ℕ)
    (hi : i < TOTAL_POINTS cfg)
    (hw : in_overrinse_window
      (((generate_baseline_data cfg g k₀).1.getD i default).timestamp) = true) :
    ((generate_anomaly_data cfg g k₀).1.getD i default).rinse_flow_lph =
      ((generate_baseline_data cfg g k₀).1.getD i default).rinse_flow_lph *
        (15/10) ∧
    ((generate_anomaly_data cfg g k₀).1.getD i default).inlet_flow_lph =
      ((generate_baseline_data cfg g k₀).1.getD i default).inlet_flow_lph +
        ((generate_baseline_data cfg g k₀).1.getD i default).rinse_flow_lph *
          (15/10) * (3/10) := by
  obtain ⟨hnl, hnc⟩ := overrinse_not_in_others hw
  rw [anomaly_getD cfg g k₀ i hi]
  generalize (generate_baseline_data cfg g k₀).1.getD i default = b at hw hnl hnc ⊢
  unfold anomalyStep
  simp [hw, hnl, hnc]

/-- C7 witness: the amended claim instantiated at sample 513 of the
concrete 22-day all-zero-stream run. -/
theorem claim_C7_witness :
    513 < TOTAL_POINTS cfg22 ∧
    in_overrinse_window
      (((generate_baseline_data cfg22 gConst0 0).1.getD 513
        default).timestamp) = true ∧
    ((generate_anomaly_data cfg22 gConst0 0).1.getD 513 default).rinse_flow_lph =
      ((generate_baseline_data cfg22 gConst0 0).1.getD 513
        default).rinse_flow_lph * (15/10) ∧
    ((generate_anomaly_data cfg22 gConst0 0).1.getD 513 default).inlet_flow_lph =
      ((generate_baseline_data cfg22 gConst0 0).1.getD 513
          default).inlet_flow_lph +
        ((generate_baseline_data cfg22 gConst0 0).1.getD 513
          default).rinse_flow_lph * (15/10) * (3/10) :=
  ⟨by decide, by with_unfolding_all decide,
   (claim_C7_amended cfg22 gConst0 0 513 (by decide)
     (by with_unfolding_all decide)).1,
   (claim_C7_amended cfg22 gConst0 0 513 (by decide)
     (by with_unfolding_all decide)).2⟩

/-- C1 counterexample: in main's run the anomaly dataframe is built from a
second generate_baseline_data call that continues the random stream
(positions 168 onward for the 24-sample configuration), not from the
already-generated baseline.  With the stream that draws 0 up to position
167 and 1 afterwards, sample 0 of the anomaly dataframe lies outside all
three anomaly windows yet is not field-for-field identical to sample 0 of
the baseline dataframe: its inlet flow is 1508 (noise draw 1) against the
baseline's 1450 (noise draw 0), and its scenario label differs. -/
theorem claim_C1_counterexample :
    (in_leak_window
       (((generate_anomaly_data cfg1 gTail1
           (generate_baseline_data cfg1 gTail1 0).2).1.getD 0
         default).timestamp) = false ∧
     in_overrinse_window
       (((generate_anomaly_data cfg1 gTail1
           (generate_baseline_data cfg1 gTail1 0).2).1.getD 0
         default).timestamp) = false ∧
     in_unplanned_cip_window
       (((generate_anomaly_data cfg1 gTail1
           (generate_baseline_data cfg1 gTail1 0).2).1.getD 0
         default).timestamp) = false) ∧
    ((generate_anomaly_data cfg1 gTail1
        (generate_baseline_data cfg1 gTail1 0).2).1.getD 0
      default).inlet_flow_lph = 1508 ∧
    ((generate_baseline_data cfg1 gTail1 0).1.getD 0 default).inlet_flow_lph =
      1450 ∧
    (generate_anomaly_data cfg1 gTail1
        (generate_baseline_data cfg1 gTail1 0).2).1.getD 0 default ≠
      (generate_baseline_data cfg1 gTail1 0).1.getD 0 default := by
  with_unfolding_all decide

/-- C1 amended: the anomaly and optimized sequences are deterministic
row-wise transforms of the baseline-shaped sequence their own internal
generate_baseline_data call returns (a fresh call consuming the next
draws of the shared stream, not the already-generated baseline); outside
all three anomaly windows, an anomaly row agrees field-for-field with the
corresponding row of that internal run except for the scenario label,
set to "anomaly", and the wur field, recomputed from the stored (rounded)
inlet and production and rounded to 3 decimals. -/
theorem claim_C1_amended (cfg : Config) (g : ℕ → ℚ) (k₀ i : ℕ)
    (hi : i < TOTAL_POINTS cfg)
    (h1 : in_leak_window
      (((generate_baseline_data cfg g k₀).1.getD i default).timestamp) = false)
    (h2 : in_overrinse_window
      (((generate_baseline_data cfg g k₀).1.getD i default).timestamp) = false)
    (h3 : in_unplanned_cip_window
      (((generate_baseline_data cfg g k₀).1.getD i default).timestamp) = false) :
    (generate_anomaly_data cfg g k₀).1 =
      (generate_baseline_data cfg g k₀).1.map anomalyStep ∧
    (generate_optimized_data cfg g k₀).1 =
      (generate_baseline_data cfg g k₀).1.map optimizedStep ∧
    (generate_anomaly_data cfg g k₀).1.getD i default =
      { (generate_baseline_data cfg g k₀).1.getD i default with
        scenario := "anomaly",
        wur := roundTo 3
          (((generate_baseline_data cfg g k₀).1.getD i default).inlet_flow_lph /
           ((generate_baseline_data cfg g k₀).1.getD i
             default).production_lph) } := by
  refine ⟨rfl, rfl, ?_⟩
  rw [anomaly_getD cfg g k₀ i hi]
  generalize (generate_baseline_data cfg g k₀).1.getD i default = b at h1 h2 h3 ⊢
  unfold anomalyStep
  simp [h1, h2, h3]

/-- C1 witness: the amended claim instantiated on sample 0 of main's
anomaly run (internal baseline call starting at stream position 168) with
the identity stream. -/
theorem claim_C1_witness :
    0 < TOTAL_POINTS cfg1 ∧
    in_leak_window
      (((generate_baseline_data cfg1 gTail1
          (generate_baseline_data cfg1 gTail1 0).2).1.getD 0
        default).timestamp) = false ∧
    (generate_anomaly_data cfg1 gTail1
        (generate_baseline_data cfg1 gTail1 0).2).1.getD 0 default =
      { (generate_baseline_data cfg1 gTail1
           (generate_baseline_data cfg1 gTail1 0).2).1.getD 0 default with
        scenario := "anomaly",
        wur := roundTo 3
          (((generate_baseline_data cfg1 gTail1
              (generate_baseline_data cfg1 gTail1 0).2).1.getD 0
            default).inlet_flow_lph /
           ((generate_baseline_data cfg1 gTail1
              (generate_baseline_data cfg1 gTail1 0).2).1.getD 0
            default).production_lph) } :=
  ⟨by decide, by with_unfolding_all decide,
   (claim_C1_amended cfg1 gTail1 (generate_baseline_data cfg1 gTail1 0).2 0
     (by decide) (by with_unfolding_all decide)
     (by with_unfolding_all decide) (by with_unfolding_all decide)).2.2⟩

/-- Inlet flow of an optimized row in terms of the corresponding input
row: the 0.97 and 0.90 factors compose to 0.873, and cip-active rows
additionally lose 0.9 * 0.1 * 0.9 = 0.081 times their stored cip_flow. -/
theorem optimizedStep_inlet (s : Sample) :
    (optimizedStep s).inlet_flow_lph =
      s.inlet_flow_lph * (873/1000) -
        (if s.cip_active then s.cip_flow_lph * (81/1000) else 0) := by
  unfold optimizedStep
  cases hc : s.cip_active <;> simp [hc] <;> ring

/-- Every baseline row stores a nonnegative cip_flow (1000 on cip-active
rows, 0 elsewhere). -/
theorem baseline_cip_flow_nonneg (cfg : Config) (g : ℕ → ℚ) (k₀ : ℕ) :
    ∀ s ∈ (generate_baseline_data cfg g k₀).1, 0 ≤ s.cip_flow_lph := by
  intro s hs
  unfold generate_baseline_data at hs
  rw [List.mem_map] at hs
  obtain ⟨i, -, rfl⟩ := hs
  show 0 ≤ roundTo 2 (cip_flow_raw cfg i)
  unfold cip_flow_raw
  split_ifs
  · with_unfolding_all decide
  · with_unfolding_all decide

/-- Applying the optimized transform to a sample list multiplies the total
inlet flow by at most 0.873, provided the stored cip_flow column is
nonnegative. -/
theorem sumInlet_map_optimizedStep (l : List Sample)
    (h : ∀ s ∈ l, 0 ≤ s.cip_flow_lph) :
    sumInlet (l.map optimizedStep) ≤ sumInlet l * (873/1000) := by
  induction l with
  | nil => simp [sumInlet]
  | cons a t ih =>
    have ha := h a (List.mem_cons_self a t)
    have ht := ih fun s hs => h s (List.mem_cons_of_mem a hs)
    simp only [sumInlet, List.map_cons, List.sum_cons] at ht ⊢
    rw [optimizedStep_inlet]
    have hsub : 0 ≤ (if a.cip_active then a.cip_flow_lph * (81/1000) else 0) := by
      split_ifs
      · exact mul_nonneg ha (by norm_num)
      · exact le_refl 0
    nlinarith [ht, hsub]

/-- The total inlet flow of a baseline run is the sum of the rounded raw
inlet values over the sample indices. -/
theorem sumInlet_baseline (cfg : Config) (g : ℕ → ℚ) (k₀ : ℕ) :
    sumInlet (generate_baseline_data cfg g k₀).1 =
      ((List.range (TOTAL_POINTS cfg)).map
        (fun i => roundTo 2 (inlet_raw cfg g k₀ i))).sum := by
  unfold sumInlet generate_baseline_data
  rw [List.map_map]
  rfl

/-- The total inlet flow of an optimized run is the sum of the transformed
inlet values over the sample indices. -/
theorem sumInlet_optimized (cfg : Config) (g : ℕ → ℚ) (k₀ : ℕ) :
    sumInlet (generate_optimized_data cfg g k₀).1 =
      ((List.range (TOTAL_POINTS cfg)).map
        (fun i =>
          (optimizedStep (mkBaselineSample cfg g k₀ i)).inlet_flow_lph)).sum := by
  unfold sumInlet generate_optimized_data generate_baseline_data
  rw [List.map_map, List.map_map]
  rfl

/-- Inlet flow of an optimized row in terms of the raw baseline values at
index i. -/
theorem optimizedStep_mk_inlet (cfg : Config) (g : ℕ → ℚ) (k₀ i : ℕ) :
    (optimizedStep (mkBaselineSample cfg g k₀ i)).inlet_flow_lph =
      roundTo 2 (inlet_raw cfg g k₀ i) * (873/1000) -
        (if cip_active_at cfg i then
          roundTo 2 (cip_flow_raw cfg i) * (81/1000) else 0) := by
  rw [optimizedStep_inlet]
  rfl

/-- Concrete inlet values of the constant -50 one-day run: -2450 on the
two CIP samples (hours 14 and 15) and -1450 elsewhere. -/
theorem c9_inlet_neg50 : ∀ i ∈ List.range 24,
    roundTo 2 (inlet_raw cfg1 gNeg50 0 i) =
      (if 14 ≤ i ∧ i < 16 then (-2450 : ℚ) else -1450) := by
  intro i hi
  rw [List.mem_range] at hi
  interval_cases i
  all_goals with_unfolding_all decide

/-- Concrete stored cip_flow values of the one-day configuration: 1000 on
the two CIP samples and 0 elsewhere. -/
theorem c9_cipflow_cfg1 : ∀ i ∈ List.range 24,
    roundTo 2 (cip_flow_raw cfg1 i) =
      (if 14 ≤ i ∧ i < 16 then (1000 : ℚ) else 0) := by
  intro i hi
  rw [List.mem_range] at hi
  interval_cases i
  all_goals with_unfolding_all decide

/-- Concrete cip_active values of the one-day configuration: true exactly
at hours 14 and 15 (the scheduled interval [840, 930)). -/
theorem c9_cipactive_cfg1 : ∀ i ∈ List.range 24,
    cip_active_at cfg1 i = decide (14 ≤ i ∧ i < 16) := by
  intro i hi
  rw [List.mem_range] at hi
  interval_cases i
  all_goals decide

/-- Concrete optimized inlet values of the constant -50 one-day run:
0.873 * (-2450) - 0.081 * 1000 = -2219.85 on the CIP samples and
0.873 * (-1450) = -1265.85 elsewhere. -/
theorem c9_opt_inlet_neg50 : ∀ i ∈ List.range 24,
    (optimizedStep (mkBaselineSample cfg1 gNeg50 0 i)).inlet_flow_lph =
      (if 14 ≤ i ∧ i < 16 then (-44397/20 : ℚ) else -25317/20) := by
  intro i hi
  rw [optimizedStep_mk_inlet, c9_inlet_neg50 i hi, c9_cipflow_cfg1 i hi,
    c9_cipactive_cfg1 i hi]
  by_cases hP : 14 ≤ i ∧ i < 16
  · simp only [hP, decide_eq_true_eq, if_pos]
    norm_num
  · simp only [hP, decide_eq_true_eq, if_neg, not_false_iff]
    norm_num

/-- Concrete inlet values of the all-zero one-day run: 2450 on the two CIP
samples and 1450 elsewhere. -/
theorem c9_inlet_zero : ∀ i ∈ List.range 24,
    roundTo 2 (inlet_raw cfg1 gConst0 0 i) =
      (if 14 ≤ i ∧ i < 16 then (2450 : ℚ) else 1450) := by
  intro i hi
  rw [List.mem_range] at hi
  interval_cases i
  all_goals with_unfolding_all decide

/-- C9 counterexample: with the constant -50 stream every noised inlet is
negative, and the optimized transform (which scales inlet flows by the
positive factor 0.873) then raises the total: the baseline total is
-36800 while the optimized total is -32288.4, so the optimized total is
not strictly lower.  (With a constant stream all generator calls of a run
produce the same sequence, so this also refutes the claim for main's
pairing of the run-1 baseline with the run-3 optimized dataframe.) -/
theorem claim_C9_counterexample :
    sumInlet (generate_baseline_data cfg1 gNeg50 0).1 = -36800 ∧
    sumInlet (generate_optimized_data cfg1 gNeg50 0).1 = -161442/5 ∧
    ¬ sumInlet (generate_optimized_data cfg1 gNeg50 0).1 <
        sumInlet (generate_baseline_data cfg1 gNeg50 0).1 := by
  have hr : List.range (TOTAL_POINTS cfg1) = List.range 24 := rfl
  have hb : sumInlet (generate_baseline_data cfg1 gNeg50 0).1 = -36800 := by
    rw [sumInlet_baseline, hr, List.map_congr_left c9_inlet_neg50,
      show List.range 24 = [0, 1, 2, 3, 4, 5, 6, 7, 8, 9, 10, 11, 12, 13, 14,
        15, 16, 17, 18, 19, 20, 21, 22, 23] from rfl]
    norm_num [List.map_cons, List.map_nil, List.sum_cons, List.sum_nil]
  have ho : sumInlet (generate_optimized_data cfg1 gNeg50 0).1 = -161442/5 := by
    rw [sumInlet_optimized, hr, List.map_congr_left c9_opt_inlet_neg50,
      show List.range 24 = [0, 1, 2, 3, 4, 5, 6, 7, 8, 9, 10, 11, 12, 13, 14,
        15, 16, 17, 18, 19, 20, 21, 22, 23] from rfl]
    norm_num [List.map_cons, List.map_nil, List.sum_cons, List.sum_nil]
  refine ⟨hb, ho, ?_⟩
  rw [hb, ho]
  norm_num

/-- C9 amended: whenever the baseline sequence produced by the optimized
generator's own internal call has positive total inlet flow (as any
realistic noise magnitude gives), the optimized sequence's total inlet
flow is strictly lower. -/
theorem claim_C9_amended (cfg : Config) (g : ℕ → ℚ) (k₀ : ℕ)
    (hpos : 0 < sumInlet (generate_baseline_data cfg g k₀).1) :
    sumInlet (generate_optimized_data cfg g k₀).1 <
      sumInlet (generate_baseline_data cfg g k₀).1 := by
  have h1 := sumInlet_map_optimizedStep (generate_baseline_data cfg g k₀).1
    (baseline_cip_flow_nonneg cfg g k₀)
  have h2 : (generate_optimized_data cfg g k₀).1 =
      (generate_baseline_data cfg g k₀).1.map optimizedStep := rfl
  rw [h2]
  refine lt_of_le_of_lt h1 ?_
  nlinarith [hpos]

/-- C9 witness: the all-zero-stream one-day run has baseline total 36800
> 0, and its optimized total is strictly lower. -/
theorem claim_C9_witness :
    0 < sumInlet (generate_baseline_data cfg1 gConst0 0).1 ∧
    sumInlet (generate_optimized_data cfg1 gConst0 0).1 <
      sumInlet (generate_baseline_data cfg1 gConst0 0).1 := by
  have hpos : 0 < sumInlet (generate_baseline_data cfg1 gConst0 0).1 := by
    rw [sumInlet_baseline,
      show List.range (TOTAL_POINTS cfg1) = List.range 24 from rfl,
      List.map_congr_left c9_inlet_zero,
      show List.range 24 = [0, 1, 2, 3, 4, 5, 6, 7, 8, 9, 10, 11, 12, 13, 14,
        15, 16, 17, 18, 19, 20, 21, 22, 23] from rfl]
    norm_num [List.map_cons, List.map_nil, List.sum_cons, List.sum_nil]
  exact ⟨hpos, claim_C9_amended cfg1 gConst0 0 hpos⟩

end AquaTrack
